import Mathlib

/-!
Shallow embedding of the readme-ai generation-session client
(`src/readme-ai-frontend/src/hooks/readme/use-generate-readme.ts`,
`src/readme-ai-frontend/src/services/utils.ts`, and the wire types of
`src/services/readme.ts`).

The hook `useGenerateReadme` holds one `EventSource` reference and one
`progress` state cell; its `mutationFn` checks the credential, opens the
transport, and registers exactly three listeners (tags `progress`,
`complete`, `error`); `cancel()` closes the transport when one is open.
JavaScript numbers carried by envelopes (`progress` fractions) are modelled
as rationals: the client never performs arithmetic on them, only stores and
compares them. `JSON.parse` of an event body is modelled by events carrying
their already-parsed payloads.
-/

namespace ReadmeAi

/-- `ProgressUpdate` from `src/services/readme.ts` (part_024, lines 72-77):
`{ stage: string; message: string; progress: number; timestamp: string }`.
The `stage` field is a plain string in the source, not an enumeration. -/
structure ProgressUpdate where
  stage : String
  message : String
  progress : Rat
  timestamp : String
  deriving DecidableEq, Repr

/-- `ApiError` from `src/services/utils.ts`:
`constructor(message, errorCode, details?, timestamp?)`. The `details`
payload (`Record<string, unknown>`) is never inspected by the client, only
passed through; it is modelled as an association list of key/value strings. -/
structure ApiError where
  message : String
  errorCode : String
  details : Option (List (String × String))
  timestamp : Option String
  deriving DecidableEq, Repr

/-- The body of a producer `error` frame, `ApiErrorResponse` in
`src/services/utils.ts`: `{ message, error_code, details?, timestamp }`. -/
structure ErrorData where
  message : String
  error_code : String
  details : Option (List (String × String))
  timestamp : String
  deriving DecidableEq, Repr

/-- `RepoRequestParams` from `src/services/readme.ts`:
`{ repo_url: string; branch?: string; template_id?: number; title?: string }`.
`repo_url` is modelled as optional so that submission of a request with an
absent target reference can be stated; the TypeScript type requires it but
nothing checks it at runtime. -/
structure RepoRequestParams where
  repo_url : Option String
  template_id : Option Nat
  title : Option String
  deriving DecidableEq, Repr

/-- One incoming server-sent event, with its body already parsed. The hook
registers listeners for exactly the tags `progress`, `complete` and `error`;
`other tag` stands for an event whose tag is none of these three, for which
no listener is registered. A `complete` body is `{"data": <string>}` and the
variant carries that `data` field; an `error` event carries its parsed body
when the event has a `data` payload, and `none` when the transport errored
with no payload. -/
inductive Event where
  | progress (u : ProgressUpdate)
  | complete (data : String)
  | error (payload : Option ErrorData)
  | other (tag : String)
  deriving DecidableEq, Repr

/-- Settlement of the `mutationFn` promise: `resolve` with the artifact
string or `reject` with an `ApiError`. -/
inductive Outcome where
  | resolved (artifact : String)
  | rejected (e : ApiError)
  deriving DecidableEq, Repr

/-- The mutable state the hook owns for one session: the `progress` state
cell, whether the `EventSource` is open (the listeners always pair
`eventSource.close()` with clearing `eventSourceRef.current`, and `cancel`
does the same, so one flag models both), and the promise settlement
(`none` while pending). -/
structure SessionState where
  progress : Option ProgressUpdate
  conn : Bool
  outcome : Option Outcome
  deriving DecidableEq, Repr

/-- State of a freshly mounted hook: no progress, no transport, no pending
settlement. -/
def initState : SessionState :=
  { progress := none, conn := false, outcome := none }

/-- A JavaScript promise settles at most once: later `resolve`/`reject`
calls are no-ops. -/
def settle (cur : Option Outcome) (o : Outcome) : Option Outcome :=
  match cur with
  | some c => some c
  | none => some o

/-- The `ApiError` thrown by `mutationFn` when `getToken()` yields no
token: `new ApiError("Authentication required", "AUTH_REQUIRED")`. -/
def authRequiredError : ApiError :=
  { message := "Authentication required", errorCode := "AUTH_REQUIRED",
    details := none, timestamp := none }

/-- The `ApiError` synthesized by the `error` listener when the event has
no `data` payload:
`new ApiError("Failed to connect to server", "CONNECTION_ERROR")`. -/
def connectionError : ApiError :=
  { message := "Failed to connect to server", errorCode := "CONNECTION_ERROR",
    details := none, timestamp := none }

/-- The `ApiError` the `error` listener constructs from a frame body:
`new ApiError(errorData.message, errorData.error_code, errorData.details,
errorData.timestamp)`. -/
def apiErrorOfData (ed : ErrorData) : ApiError :=
  { message := ed.message, errorCode := ed.error_code,
    details := ed.details, timestamp := some ed.timestamp }

/-- `mutationFn` (use-generate-readme.ts lines 13-32): `await getToken()`;
with no token it throws `authRequiredError` without touching the transport;
with a token it builds the query string from the request parameters —
performing no validation of `repo_url` — opens the `EventSource`, and
returns a pending promise. The request parameters influence only the URL,
so the resulting state does not depend on them. -/
def submitStep (s : SessionState) (_params : RepoRequestParams)
    (token : Option String) : SessionState :=
  match token with
  | none => { s with outcome := settle s.outcome (.rejected authRequiredError) }
  | some _ => { s with conn := true, outcome := none }

/-- The three registered listeners (use-generate-readme.ts lines 34-63).
A closed `EventSource` dispatches no further events, so every event is a
no-op once `conn` is false. `progress`: `setProgress(JSON.parse(event.data))`
with no inspection of the payload. `complete`: resolve with `result.data`,
then close. `error`: with a payload, reject with the structured error built
from it; without one, reject with the synthesized connection error; then
close. An event with an unrecognized tag fires no listener. -/
def processEvent (s : SessionState) (e : Event) : SessionState :=
  if s.conn then
    match e with
    | .progress u => { s with progress := some u }
    | .complete d =>
        { s with outcome := settle s.outcome (.resolved d), conn := false }
    | .error (some ed) =>
        { s with outcome := settle s.outcome (.rejected (apiErrorOfData ed)),
                 conn := false }
    | .error none =>
        { s with outcome := settle s.outcome (.rejected connectionError),
                 conn := false }
    | .other _ => s
  else s

/-- `cancel` (use-generate-readme.ts lines 68-75): when
`eventSourceRef.current` is set, close the transport, clear the reference,
`setProgress(null)` and `mutation.reset()`; otherwise do nothing. The
promise settlement is untouched: cancellation rejects nothing. -/
def cancelStep (s : SessionState) : SessionState :=
  if s.conn then { s with conn := false, progress := none } else s

/-- One caller-visible occurrence after submission: either the transport
delivers an event or the caller invokes `cancel()`. -/
inductive Act where
  | ev (e : Event)
  | cancel
  deriving DecidableEq, Repr

/-- Process one occurrence. -/
def step (s : SessionState) (a : Act) : SessionState :=
  match a with
  | .ev e => processEvent s e
  | .cancel => cancelStep s

/-- Run a session forward over a list of occurrences. -/
def run (s : SessionState) (acts : List Act) : SessionState :=
  acts.foldl step s

/-- `isRetryableError` from `src/services/utils.ts` lines 119-126: the
retryable codes are exactly `INTERNAL_SERVER_ERROR`, `ANALYSIS_ERROR`,
`RATE_LIMIT_EXCEEDED`. -/
def retryableCodes : List String :=
  ["INTERNAL_SERVER_ERROR", "ANALYSIS_ERROR", "RATE_LIMIT_EXCEEDED"]

/-- `isRetryableError(error) = retryableCodes.includes(error.errorCode)`. -/
def isRetryableError (error : ApiError) : Bool :=
  retryableCodes.contains error.errorCode

/-- The closed `ErrorKind` enumeration of the specification (§3): the seven
kinds a session may surface, `CONNECTION_ERROR` being consumer-synthesized.
Stated from the specification for comparison with the codes the client
produces. -/
def specErrorKinds : List String :=
  ["VALIDATION_ERROR", "REPO_ACCESS_ERROR", "ANALYSIS_ERROR",
   "RATE_LIMIT_EXCEEDED", "INSUFFICIENT_TOKENS", "INTERNAL_SERVER_ERROR",
   "CONNECTION_ERROR"]

/-- Modelled from the spec: the producer (backend) source is not present in
the repository snapshot, only its entrypoint script. Per §6 the producer
emits `error` frames whose `error_code` is one of the ErrorKind values and
"producer never emits CONNECTION_ERROR": these are the kinds a well-formed
producer failure frame may carry. -/
def producerErrorKinds : List String :=
  ["VALIDATION_ERROR", "REPO_ACCESS_ERROR", "ANALYSIS_ERROR",
   "RATE_LIMIT_EXCEEDED", "INSUFFICIENT_TOKENS", "INTERNAL_SERVER_ERROR"]

/-- `stages` from the progress indicator component (part_015, line 12):
`["init", "analysis", "template", "generation"]`, the canonical stage order;
`getStepNumber` is `stages.indexOf(stage) + 1`. -/
def stages : List String :=
  ["init", "analysis", "template", "generation"]

/-- Once the transport is closed, nothing changes: a closed `EventSource`
dispatches no events and `cancel` finds no reference to clear. -/
theorem step_of_closed (s : SessionState) (a : Act) (h : s.conn = false) :
    step s a = s := by
  cases a with
  | ev e => simp [step, processEvent, h]
  | cancel => simp [step, cancelStep, h]

/-- A whole trace is inert once the transport is closed. -/
theorem run_of_closed (s : SessionState) (acts : List Act) (h : s.conn = false) :
    run s acts = s := by
  induction acts with
  | nil => rfl
  | cons a as ih =>
      show List.foldl step (step s a) as = s
      rw [step_of_closed s a h]
      exact ih

/-- One step preserves the invariant "pending with a closed transport means
the progress cell has been cleared": the only way to close the transport
without settling the promise is `cancel`, which clears progress. -/
theorem step_pending_closed (s : SessionState) (a : Act)
    (h : s.outcome = none → s.conn = false → s.progress = none) :
    (step s a).outcome = none → (step s a).conn = false →
      (step s a).progress = none := by
  by_cases hc : s.conn = true
  · cases a with
    | ev e =>
        cases e with
        | progress u =>
            intro _ hcf
            simp [step, processEvent, hc] at hcf
        | complete d =>
            intro hn _
            simp [step, processEvent, hc, settle] at hn
            cases ho : s.outcome with
            | none => rw [ho] at hn; simp at hn
            | some o => rw [ho] at hn; simp at hn
        | error p =>
            intro hn _
            cases p with
            | none =>
                simp [step, processEvent, hc, settle] at hn
                cases ho : s.outcome with
                | none => rw [ho] at hn; simp at hn
                | some o => rw [ho] at hn; simp at hn
            | some ed =>
                simp [step, processEvent, hc, settle] at hn
                cases ho : s.outcome with
                | none => rw [ho] at hn; simp at hn
                | some o => rw [ho] at hn; simp at hn
        | other t =>
            simp only [step, processEvent, hc, if_true]
            intro _ hcf
            simp at hcf
    | cancel =>
        intro _ _
        simp [step, cancelStep, hc]
  · have hcf : s.conn = false := by simpa using hc
    simpa [step_of_closed s a hcf] using h

/-- The invariant of `step_pending_closed`, carried along a trace. -/
theorem run_pending_closed (s : SessionState) (acts : List Act)
    (h : s.outcome = none → s.conn = false → s.progress = none) :
    (run s acts).outcome = none → (run s acts).conn = false →
      (run s acts).progress = none := by
  induction acts generalizing s with
  | nil => exact h
  | cons a as ih =>
      show (run (step s a) as).outcome = none →
        (run (step s a) as).conn = false → (run (step s a) as).progress = none
      exact ih (step s a) (step_pending_closed s a h)

/-- C9. `isRetryableError` holds exactly for `INTERNAL_SERVER_ERROR`,
`ANALYSIS_ERROR` and `RATE_LIMIT_EXCEEDED`, and is false for every other
code, in particular `VALIDATION_ERROR`, `REPO_ACCESS_ERROR`,
`INSUFFICIENT_TOKENS` and `CONNECTION_ERROR`. -/
theorem isRetryableError_exact (e : ApiError) :
    (isRetryableError e = true ↔
      (e.errorCode = "INTERNAL_SERVER_ERROR" ∨ e.errorCode = "ANALYSIS_ERROR"
        ∨ e.errorCode = "RATE_LIMIT_EXCEEDED"))
    ∧ isRetryableError { e with errorCode := "VALIDATION_ERROR" } = false
    ∧ isRetryableError { e with errorCode := "REPO_ACCESS_ERROR" } = false
    ∧ isRetryableError { e with errorCode := "INSUFFICIENT_TOKENS" } = false
    ∧ isRetryableError { e with errorCode := "CONNECTION_ERROR" } = false := by
  refine ⟨?_, rfl, rfl, rfl, rfl⟩
  simp [isRetryableError, retryableCodes]

/-- C10. Submitting when the credential getter yields no token rejects
immediately with the `AUTH_REQUIRED` error — no transport is opened and no
progress update occurs — and `AUTH_REQUIRED` lies outside the closed
ErrorKind enumeration of the specification. -/
theorem submit_without_token_rejects_auth_required (params : RepoRequestParams) :
    submitStep initState params none
      = { progress := none, conn := false,
          outcome := some (.rejected authRequiredError) }
    ∧ authRequiredError.errorCode = "AUTH_REQUIRED"
    ∧ "AUTH_REQUIRED" ∉ specErrorKinds := by
  refine ⟨rfl, rfl, ?_⟩
  simp [specErrorKinds]

/-- C4 counterexample. A request whose `repo_url` is absent does not fail
with `VALIDATION_ERROR` before the transport opens: with a credential
present the client opens the connection anyway (`conn = true`), the promise
stays pending and no error of any kind is produced locally. -/
theorem absent_repo_url_reaches_transport :
    submitStep initState
      { repo_url := none, template_id := none, title := none } (some "tok")
      = { progress := none, conn := true, outcome := none } := rfl

/-- C4 amended. The client validates nothing about the request: whatever
the parameters — `repo_url` present or absent — submission with a credential
opens the transport and produces no `VALIDATION_ERROR`; the only
pre-transport rejection in the code is the missing-credential check. -/
theorem submit_performs_no_validation (params : RepoRequestParams)
    (tok : String) :
    submitStep initState params (some tok)
      = { progress := none, conn := true, outcome := none } := rfl

/-- Splitting a trace at any point. -/
theorem run_append (s : SessionState) (xs ys : List Act) :
    run s (xs ++ ys) = run (run s xs) ys := by
  simp [run, List.foldl_append]

/-- C1. Cancel wins the race: in any session opened with a credential, if
`cancel()` runs at a point where no terminal envelope has yet been processed
(the promise is still pending), then whatever arrives afterwards — including
Completion or Failure envelopes already in flight — the session ends in the
cancelled state: transport closed, progress discarded, and no terminal
callback (resolution or rejection) ever fires. -/
theorem cancel_before_terminal_never_completes (params : RepoRequestParams)
    (tok : String) (pre post : List Act)
    (h : (run (submitStep initState params (some tok)) pre).outcome = none) :
    run (submitStep initState params (some tok)) (pre ++ Act.cancel :: post)
      = { progress := none, conn := false, outcome := none } := by
  have hsplit : run (submitStep initState params (some tok))
      (pre ++ Act.cancel :: post)
      = run (step (run (submitStep initState params (some tok)) pre)
          Act.cancel) post := by
    rw [run_append]
    rfl
  rw [hsplit]
  by_cases hc : (run (submitStep initState params (some tok)) pre).conn = true
  · have h2 : step (run (submitStep initState params (some tok)) pre) Act.cancel
        = { progress := none, conn := false,
            outcome := (run (submitStep initState params (some tok)) pre).outcome } := by
      simp [step, cancelStep, hc]
    rw [h2, h]
    exact run_of_closed _ post rfl
  · have hcf : (run (submitStep initState params (some tok)) pre).conn = false := by
      simpa using hc
    have hp : (run (submitStep initState params (some tok)) pre).progress = none := by
      refine run_pending_closed _ pre ?_ h hcf
      intro _ _
      rfl
    rw [step_of_closed _ Act.cancel hcf, run_of_closed _ post hcf]
    calc run (submitStep initState params (some tok)) pre
        = { progress := (run (submitStep initState params (some tok)) pre).progress,
            conn := (run (submitStep initState params (some tok)) pre).conn,
            outcome := (run (submitStep initState params (some tok)) pre).outcome } := rfl
      _ = { progress := none, conn := false, outcome := none } := by rw [hp, hcf, h]

/-- Witness for C1: one progress envelope, then cancel, then a late
Completion envelope; the session still ends cancelled with no resolution. -/
theorem cancel_before_terminal_never_completes_witness :
    (run (submitStep initState
        { repo_url := some "example/repo", template_id := none, title := none }
        (some "tok"))
      [Act.ev (.progress
        { stage := "init", message := "m", progress := 1/10, timestamp := "t1" })]).outcome
      = none
    ∧ run (submitStep initState
        { repo_url := some "example/repo", template_id := none, title := none }
        (some "tok"))
        ([Act.ev (.progress
          { stage := "init", message := "m", progress := 1/10, timestamp := "t1" })]
          ++ Act.cancel :: [Act.ev (.complete "# Example")])
      = { progress := none, conn := false, outcome := none } :=
  ⟨rfl, cancel_before_terminal_never_completes _ _ _ _ rfl⟩

/-- C2 counterexample. The progress listener applies a non-monotone
Progress envelope instead of rejecting it: after a fraction-1/2 envelope in
stage `analysis`, an envelope with fraction 1/5 in the earlier stage `init`
becomes the externally observable progress, the session keeps streaming and
no protocol violation is raised — although the fraction decreased and the
stage index went backwards. -/
theorem progress_monotonicity_cex :
    run (submitStep initState
        { repo_url := some "example/repo", template_id := none, title := none }
        (some "tok"))
      [Act.ev (.progress
        { stage := "analysis", message := "a", progress := 1/2, timestamp := "t1" }),
       Act.ev (.progress
        { stage := "init", message := "b", progress := 1/5, timestamp := "t2" })]
      = { progress := some
            { stage := "init", message := "b", progress := 1/5, timestamp := "t2" },
          conn := true, outcome := none }
    ∧ ¬ ((1 : Rat)/2 ≤ 1/5)
    ∧ stages.indexOf "init" < stages.indexOf "analysis" := by
  refine ⟨rfl, by norm_num, by decide⟩

/-- C2 amended. The controller performs no monotonicity check at all: each
Progress envelope's payload replaces the observable progress verbatim,
whatever its relation to the previous one, and nothing else in the session
state changes (no rejection, no failure, transport stays open). -/
theorem progress_applied_without_monotonicity_check (s : SessionState)
    (u1 u2 : ProgressUpdate) (h : s.conn = true) :
    processEvent (processEvent s (.progress u1)) (.progress u2)
      = { s with progress := some u2 } := by
  simp [processEvent, h]

/-- Witness for the amended C2. -/
theorem progress_applied_without_monotonicity_check_witness :
    (({ progress := none, conn := true, outcome := none } : SessionState).conn
      = true)
    ∧ processEvent (processEvent
        { progress := none, conn := true, outcome := none }
        (.progress
          { stage := "analysis", message := "a", progress := 1/2, timestamp := "t1" }))
        (.progress
          { stage := "init", message := "b", progress := 1/5, timestamp := "t2" })
      = { progress := some
            { stage := "init", message := "b", progress := 1/5, timestamp := "t2" },
          conn := true, outcome := none } :=
  ⟨rfl, progress_applied_without_monotonicity_check _ _ _ rfl⟩

/-- C3 counterexample. Decoding does not fail closed: a progress envelope
whose fraction 3/2 lies outside `[0,1]` and whose stage `weird` is outside
the stage model is applied to observable progress while the session keeps
streaming (no `Failed`, no `INTERNAL_SERVER_ERROR`); and an envelope with
an unrecognized tag fires no listener — it is silently dropped, the state
unchanged. -/
theorem fail_closed_decoding_cex :
    processEvent
        (submitStep initState
          { repo_url := some "example/repo", template_id := none, title := none }
          (some "tok"))
        (.progress
          { stage := "weird", message := "m", progress := 3/2, timestamp := "t" })
      = { progress := some
            { stage := "weird", message := "m", progress := 3/2, timestamp := "t" },
          conn := true, outcome := none }
    ∧ processEvent
        (submitStep initState
          { repo_url := some "example/repo", template_id := none, title := none }
          (some "tok"))
        (.other "mystery")
      = submitStep initState
          { repo_url := some "example/repo", template_id := none, title := none }
          (some "tok")
    ∧ ¬ ((3 : Rat)/2 ≤ 1)
    ∧ "weird" ∉ stages := by
  refine ⟨rfl, rfl, by norm_num, by decide⟩

/-- C3 amended. The client validates nothing about incoming envelopes: a
Progress envelope is applied to progress state whatever its stage string or
fraction value, leaving the rest of the session state untouched, and an
envelope with an unrecognized tag is silently ignored; no protocol
violation is ever synthesized. -/
theorem decoding_not_fail_closed (s : SessionState) (u : ProgressUpdate)
    (tag : String) (h : s.conn = true) :
    processEvent s (.progress u) = { s with progress := some u }
    ∧ processEvent s (.other tag) = s := by
  constructor <;> simp [processEvent, h]

/-- Witness for the amended C3. -/
theorem decoding_not_fail_closed_witness :
    (({ progress := none, conn := true, outcome := none } : SessionState).conn
      = true)
    ∧ (processEvent { progress := none, conn := true, outcome := none }
        (.progress
          { stage := "weird", message := "m", progress := 3/2, timestamp := "t" })
      = { progress := some
            { stage := "weird", message := "m", progress := 3/2, timestamp := "t" },
          conn := true, outcome := none }
      ∧ processEvent { progress := none, conn := true, outcome := none }
          (.other "mystery")
        = { progress := none, conn := true, outcome := none }) :=
  ⟨rfl, decoding_not_fail_closed _ _ _ rfl⟩

/-- C5. Connection-loss synthesis: a transport error event with no data
payload settles the session as `Failed` with the synthesized
`CONNECTION_ERROR` and closes the transport; while an error frame actually
sent by the producer — whose `error_code` is one of the producer-emittable
kinds — surfaces with that code, which is never `CONNECTION_ERROR`. Hence
`CONNECTION_ERROR` arises only from the consumer-side synthesis. -/
theorem connection_error_only_synthesized (s : SessionState) (ed : ErrorData)
    (h : s.conn = true) (h0 : s.outcome = none)
    (hp : ed.error_code ∈ producerErrorKinds) :
    processEvent s (.error none)
      = { s with conn := false,
                 outcome := some (.rejected connectionError) }
    ∧ connectionError.errorCode = "CONNECTION_ERROR"
    ∧ (processEvent s (.error (some ed))).outcome
        = some (.rejected (apiErrorOfData ed))
    ∧ (apiErrorOfData ed).errorCode ≠ "CONNECTION_ERROR" := by
  refine ⟨by simp [processEvent, h, h0, settle], rfl,
    by simp [processEvent, h, h0, settle], ?_⟩
  have hcode : (apiErrorOfData ed).errorCode = ed.error_code := rfl
  rw [hcode]
  simp only [producerErrorKinds, List.mem_cons, List.not_mem_nil, or_false] at hp
  rcases hp with h1 | h1 | h1 | h1 | h1 | h1 <;> rw [h1] <;> decide

/-- Witness for C5. -/
theorem connection_error_only_synthesized_witness :
    (({ progress := none, conn := true, outcome := none } : SessionState).conn
      = true)
    ∧ (({ progress := none, conn := true, outcome := none } : SessionState).outcome
      = none)
    ∧ ({ message := "analysis failed", error_code := "ANALYSIS_ERROR",
         details := none, timestamp := "t" } : ErrorData).error_code
        ∈ producerErrorKinds
    ∧ (processEvent { progress := none, conn := true, outcome := none }
        (.error none)
      = { progress := none, conn := false,
          outcome := some (.rejected connectionError) }
      ∧ connectionError.errorCode = "CONNECTION_ERROR"
      ∧ (processEvent { progress := none, conn := true, outcome := none }
          (.error (some
            { message := "analysis failed", error_code := "ANALYSIS_ERROR",
              details := none, timestamp := "t" }))).outcome
        = some (.rejected (apiErrorOfData
            { message := "analysis failed", error_code := "ANALYSIS_ERROR",
              details := none, timestamp := "t" }))
      ∧ (apiErrorOfData
          { message := "analysis failed", error_code := "ANALYSIS_ERROR",
            details := none, timestamp := "t" }).errorCode
        ≠ "CONNECTION_ERROR") :=
  ⟨rfl, rfl, by decide,
    connection_error_only_synthesized _ _ rfl rfl (by decide)⟩

/-- C6. A Failure envelope carrying a data payload settles the session as
`Failed` with exactly the structured error of the envelope — message, error
kind, details and timestamp pass through unchanged — and the transport is
closed. -/
theorem failure_envelope_surfaces_structured_error (s : SessionState)
    (ed : ErrorData) (h : s.conn = true) (h0 : s.outcome = none) :
    processEvent s (.error (some ed))
      = { s with conn := false,
                 outcome := some (.rejected
                   { message := ed.message, errorCode := ed.error_code,
                     details := ed.details, timestamp := some ed.timestamp }) } := by
  simp [processEvent, h, h0, settle, apiErrorOfData]

/-- Witness for C6. -/
theorem failure_envelope_surfaces_structured_error_witness :
    (({ progress := none, conn := true, outcome := none } : SessionState).conn
      = true)
    ∧ (({ progress := none, conn := true, outcome := none } : SessionState).outcome
      = none)
    ∧ processEvent { progress := none, conn := true, outcome := none }
        (.error (some
          { message := "bad ref", error_code := "VALIDATION_ERROR",
            details := some [("status_code", "422")], timestamp := "ts" }))
      = { progress := none, conn := false,
          outcome := some (.rejected
            { message := "bad ref", errorCode := "VALIDATION_ERROR",
              details := some [("status_code", "422")],
              timestamp := some "ts" }) } :=
  ⟨rfl, rfl, failure_envelope_surfaces_structured_error _ _ rfl rfl⟩

/-- Progress envelopes alone keep the transport open and the promise
pending: they only touch the progress cell. -/
theorem run_progress_only (us : List ProgressUpdate) (s : SessionState)
    (h : s.conn = true) :
    (run s (us.map fun u => Act.ev (.progress u))).conn = true
    ∧ (run s (us.map fun u => Act.ev (.progress u))).outcome = s.outcome := by
  induction us generalizing s with
  | nil => exact ⟨h, rfl⟩
  | cons u us ih =>
      have hstep : step s (Act.ev (.progress u)) = { s with progress := some u } := by
        simp [step, processEvent, h]
      have hone : run s ((u :: us).map fun v => Act.ev (.progress v))
          = run { s with progress := some u }
              (us.map fun v => Act.ev (.progress v)) := by
        simp only [List.map_cons]
        show run (step s (Act.ev (.progress u)))
          (us.map fun v => Act.ev (.progress v)) = _
        rw [hstep]
      rw [hone]
      exact ih { s with progress := some u } h

/-- C7. Happy path: any number of progress frames followed by one complete
frame whose body is `{"data": <artifact>}` resolves the session with exactly
that artifact and closes the transport at once; in particular the concrete
scenario `progress(init, 0.1)`, `progress(analysis, 0.5)`,
`progress(template, 0.8)`, `progress(generation, 0.95)`,
`complete("# Example\n...")` ends with artifact `"# Example\n..."`. -/
theorem complete_resolves_artifact (params : RepoRequestParams) (tok : String)
    (us : List ProgressUpdate) (d : String) :
    ((run (submitStep initState params (some tok))
        ((us.map fun u => Act.ev (.progress u)) ++ [Act.ev (.complete d)])).outcome
      = some (.resolved d)
    ∧ (run (submitStep initState params (some tok))
        ((us.map fun u => Act.ev (.progress u)) ++ [Act.ev (.complete d)])).conn
      = false)
    ∧ run (submitStep initState
        { repo_url := some "example/repo", template_id := none, title := none }
        (some "tok"))
        [Act.ev (.progress
          { stage := "init", message := "m1", progress := 1/10, timestamp := "t1" }),
         Act.ev (.progress
          { stage := "analysis", message := "m2", progress := 1/2, timestamp := "t2" }),
         Act.ev (.progress
          { stage := "template", message := "m3", progress := 4/5, timestamp := "t3" }),
         Act.ev (.progress
          { stage := "generation", message := "m4", progress := 19/20, timestamp := "t4" }),
         Act.ev (.complete "# Example\n...")]
      = { progress := some
            { stage := "generation", message := "m4", progress := 19/20,
              timestamp := "t4" },
          conn := false, outcome := some (.resolved "# Example\n...") } := by
  have hsub : (submitStep initState params (some tok)).conn = true := rfl
  obtain ⟨hc, ho⟩ := run_progress_only us (submitStep initState params (some tok)) hsub
  have ho2 : (run (submitStep initState params (some tok))
      (us.map fun u => Act.ev (.progress u))).outcome = none := ho.trans rfl
  have hkey : run (submitStep initState params (some tok))
      ((us.map fun u => Act.ev (.progress u)) ++ [Act.ev (.complete d)])
      = step (run (submitStep initState params (some tok))
          (us.map fun u => Act.ev (.progress u))) (Act.ev (.complete d)) := by
    rw [run_append]
    rfl
  refine ⟨⟨?_, ?_⟩, rfl⟩ <;>
    rw [hkey] <;>
    simp [step, processEvent, hc, ho2, settle]

/-- C8. `cancel()` is idempotent: during an active session it closes the
transport, discards progress, leaves the promise unsettled (no error is
reported to the caller); a second consecutive `cancel()` changes nothing
(`cancel();cancel()` equals a single `cancel()`); and calling it with no
active session is a no-op. -/
theorem cancel_is_idempotent (s : SessionState) (h : s.conn = true)
    (h0 : s.outcome = none) :
    cancelStep s = { progress := none, conn := false, outcome := none }
    ∧ cancelStep (cancelStep s) = cancelStep s
    ∧ cancelStep initState = initState := by
  have h1 : cancelStep s = { progress := none, conn := false, outcome := none } := by
    simp [cancelStep, h, h0]
  refine ⟨h1, ?_, rfl⟩
  rw [h1]
  rfl

/-- Witness for C8. -/
theorem cancel_is_idempotent_witness :
    (({ progress := some { stage := "analysis", message := "m", progress := 1/2, timestamp := "t" }, conn := true, outcome := none } : SessionState).conn = true)
    ∧ (({ progress := some { stage := "analysis", message := "m", progress := 1/2, timestamp := "t" }, conn := true, outcome := none } : SessionState).outcome = none)
    ∧ (cancelStep { progress := some { stage := "analysis", message := "m", progress := 1/2, timestamp := "t" }, conn := true, outcome := none } = { progress := none, conn := false, outcome := none }
      ∧ cancelStep (cancelStep { progress := some { stage := "analysis", message := "m", progress := 1/2, timestamp := "t" }, conn := true, outcome := none }) = cancelStep { progress := some { stage := "analysis", message := "m", progress := 1/2, timestamp := "t" }, conn := true, outcome := none }
      ∧ cancelStep initState = initState) :=
  ⟨rfl, rfl, cancel_is_idempotent _ rfl rfl⟩

end ReadmeAi
